import Mathlib

/-!
# Verification of the airlock HIL simulator core

Shallow embedding of the simulation and protocol engine of
`src/airlock_gui.py` (class `AirlockGUI`):

* geometric derivation of sensor booleans from the rover position
  (`update_sensors`),
* the per-gate motion state machine (`process_gate_requests`,
  `animate_gates`),
* the serial telegram codec (`send_data`, the parsing part of
  `read_arduino_data`).

Python floats are modelled as exact rationals (`ℚ`).  Python strings are
Lean `String`s; `str.split`, `in`, `str.join` and indexing are modelled
on the underlying character list.  Fallible Python code (statements that
can raise) is modelled with `Except`, the error string naming the Python
exception class.
-/

namespace Airlock

/-! ## Geometry constants (`AirlockGUI.__init__`) -/

def scale : ℚ := 1/2

def front_zone_width : ℚ := 408 * scale

def middle_zone_width : ℚ := 560 * scale

def back_zone_width : ℚ := 408 * scale

/-- `self.rover_width = 638 * self.scale * 0.4` -/
def rover_width : ℚ := 638 * scale * (2/5)

def start_x : ℚ := 100

/-- `self.gate_a_x = self.front_zone_width` -/
def gate_a_x : ℚ := front_zone_width

/-- `self.gate_b_x = self.front_zone_width + self.middle_zone_width` -/
def gate_b_x : ℚ := front_zone_width + middle_zone_width

/-- local constant in `update_sensors` -/
def safety_zone_width : ℚ := 60

/-- `self.gate_animation_duration = 3.0` -/
def gate_animation_duration : ℚ := 3

/-- `dt = 0.1` in `animate_gates` -/
def animation_dt : ℚ := 1/10

/-- Python's two-argument `min` on numbers. -/
def pymin (a b : ℚ) : ℚ := if a ≤ b then a else b

/-! ## Data model -/

/-- The `self.sensor_states` dictionary.  Its key set is fixed at
construction, so it is modelled as a record; the insertion order of the
keys (which Python dict iteration follows) is recorded by
`sensor_items`. -/
structure Sensors where
  presence_front : Bool
  presence_middle : Bool
  presence_back : Bool
  gate_safety_a : Bool
  gate_safety_b : Bool
  gate_moving_a : Bool
  gate_moving_b : Bool
deriving DecidableEq

/-- One gate's motion state: the fields `gate_x_open`, `gate_x_moving`,
`gate_x_target_state`, `gate_animation_progress_x`,
`gate_x_animation_time` of `AirlockGUI` (`open` is a Lean keyword, hence
`isOpen`). -/
structure GateState where
  isOpen : Bool
  moving : Bool
  target_state : Bool
  progress : ℚ
  animation_time : ℚ
deriving DecidableEq

def GateState.init : GateState := ⟨false, false, false, 0, 0⟩

def Sensors.init : Sensors := ⟨false, false, false, false, false, false, false⟩

/-! ## Sensor derivation (`update_sensors`, lines 1611-1646) -/

def front_sensor_x : ℚ := start_x + front_zone_width / 2

def middle_sensor_x : ℚ := start_x + front_zone_width + middle_zone_width / 2

def back_sensor_x : ℚ :=
  start_x + front_zone_width + middle_zone_width + back_zone_width / 2

/-- The sensor-deriving part of `update_sensors`: recomputes the three
presence sensors and the two gate safety sensors from the rover's x
position; the two `GATE_MOVING_*` entries are not touched. -/
def update_sensors (x : ℚ) (s : Sensors) : Sensors :=
  let rover_left := x - rover_width / 2
  let rover_right := x + rover_width / 2
  let gate_a_pos := start_x + gate_a_x
  let gate_b_pos := start_x + gate_b_x
  { s with
    presence_front := decide (rover_left ≤ front_sensor_x ∧ front_sensor_x ≤ rover_right)
    presence_middle := decide (rover_left ≤ middle_sensor_x ∧ middle_sensor_x ≤ rover_right)
    presence_back := decide (rover_left ≤ back_sensor_x ∧ back_sensor_x ≤ rover_right)
    gate_safety_a :=
      if rover_right > gate_a_pos - safety_zone_width / 2 ∧
          rover_left < gate_a_pos + safety_zone_width / 2 then true else false
    gate_safety_b :=
      if rover_right > gate_b_pos - safety_zone_width / 2 ∧
          rover_left < gate_b_pos + safety_zone_width / 2 then true else false }

/-! ## Gate request processing (`process_gate_requests`, lines 857-972)

The per-gate body.  `dict_moving` is the `GATE_MOVING_X` entry of
`sensor_states`; the function returns the new gate state together with
the new value of that entry (the source writes it only when a gate
starts moving from rest). -/

def process_gate_request (req : Bool) (g : GateState) (dict_moving : Bool) :
    GateState × Bool :=
  if req then
    if !g.moving then
      if !g.isOpen then
        ({ g with
            target_state := true
            moving := true
            animation_time := g.progress * gate_animation_duration }, true)
      else (g, dict_moving)
    else
      if !g.target_state then
        ({ g with
            target_state := true
            animation_time := g.progress * gate_animation_duration }, dict_moving)
      else (g, dict_moving)
  else
    if !g.moving then
      if g.isOpen then
        ({ g with
            target_state := false
            moving := true
            animation_time := (1 - g.progress) * gate_animation_duration }, true)
      else (g, dict_moving)
    else
      if g.target_state then
        ({ g with
            target_state := false
            animation_time := (1 - g.progress) * gate_animation_duration }, dict_moving)
      else (g, dict_moving)

/-! ## Gate animation tick (`animate_gates`, lines 974-1106) -/

/-- The per-gate body of `animate_gates`, parameterised by the local
variable `safety_triggered` so that both the written branch structure
and the hardcoded value can be stated.  `dict_moving` is the
`GATE_MOVING_X` entry of `sensor_states`. -/
def animate_gate_with (safety_triggered : Bool) (g : GateState)
    (dict_moving : Bool) : GateState × Bool :=
  if !g.moving then (g, dict_moving)
  else
    if g.target_state then
      let t := g.animation_time + animation_dt
      let p := pymin (t / gate_animation_duration) 1
      if p ≥ 1 then
        ({ g with
            progress := 1
            isOpen := true
            moving := false
            animation_time := 0 }, false)
      else ({ g with animation_time := t, progress := p }, dict_moving)
    else
      if !safety_triggered then
        let t := g.animation_time + animation_dt
        let p := pymin (t / gate_animation_duration) 1
        if p ≥ 1 then
          ({ g with
              progress := 0
              isOpen := false
              moving := false
              animation_time := 0 }, false)
        else ({ g with animation_time := t, progress := 1 - p }, dict_moving)
      else (g, dict_moving)

/-- The per-gate tick as the source actually executes it: the source
assigns `safety_triggered=False` (lines 985 and 1048, the read of the
safety sensor being commented out), so the closing interlock branch is
never taken. -/
def animate_gate (g : GateState) (dict_moving : Bool) : GateState × Bool :=
  animate_gate_with false g dict_moving

/-! ## The orchestrating state and its transitions -/

/-- The simulation state shared by the periodic tasks: rover position,
the sensor dictionary, the `gate_requests` dictionary, and both gate
states. -/
structure SysState where
  rover_x : ℚ
  sensors : Sensors
  request_a : Bool
  request_b : Bool
  gate_a : GateState
  gate_b : GateState
deriving DecidableEq

def SysState.init : SysState :=
  ⟨50, Sensors.init, false, false, GateState.init, GateState.init⟩

/-- Rover move (drag / arrow keys): set `rover_x`, then `update_sensors`. -/
def move_rover (x : ℚ) (s : SysState) : SysState :=
  { s with rover_x := x, sensors := update_sensors x s.sensors }

/-- `process_gate_requests`: both gates processed against the current
`gate_requests` dictionary. -/
def process_gate_requests (s : SysState) : SysState :=
  { s with
    gate_a := (process_gate_request s.request_a s.gate_a s.sensors.gate_moving_a).1
    gate_b := (process_gate_request s.request_b s.gate_b s.sensors.gate_moving_b).1
    sensors := { s.sensors with
      gate_moving_a := (process_gate_request s.request_a s.gate_a s.sensors.gate_moving_a).2
      gate_moving_b := (process_gate_request s.request_b s.gate_b s.sensors.gate_moving_b).2 } }

/-- Inbound request dispatch: store the decoded request booleans in
`gate_requests`, then run `process_gate_requests` (as
`read_arduino_data` does). -/
def receive_requests (ra rb : Bool) (s : SysState) : SysState :=
  process_gate_requests { s with request_a := ra, request_b := rb }

/-- One tick of `animate_gates` over the whole state. -/
def animate_gates (s : SysState) : SysState :=
  { s with
    gate_a := (animate_gate s.gate_a s.sensors.gate_moving_a).1
    gate_b := (animate_gate s.gate_b s.sensors.gate_moving_b).1
    sensors := { s.sensors with
      gate_moving_a := (animate_gate s.gate_a s.sensors.gate_moving_a).2
      gate_moving_b := (animate_gate s.gate_b s.sensors.gate_moving_b).2 } }

/-! ## Telegram codec

Outbound: `send_data`, lines 800-823.  Inbound: the parsing part of
`read_arduino_data`, lines 825-855.  Python string splitting, `in`,
`join` and indexing are modelled on the character list of a `String`. -/

/-- `"1" if state else "0"` -/
def bit (b : Bool) : String := if b then "1" else "0"

/-- `self.sensor_states.items()` in the dictionary's insertion order
(the order of the literal at lines 81-89). -/
def sensor_items (s : Sensors) : List (String × Bool) :=
  [("PRESENCE_FRONT", s.presence_front), ("PRESENCE_MIDDLE", s.presence_middle),
   ("PRESENCE_BACK", s.presence_back), ("GATE_SAFETY_A", s.gate_safety_a),
   ("GATE_SAFETY_B", s.gate_safety_b), ("GATE_MOVING_A", s.gate_moving_a),
   ("GATE_MOVING_B", s.gate_moving_b)]

/-- Python's `",".join` on a list of strings. -/
def joinComma : List String → String
  | [] => ""
  | [x] => x
  | x :: y :: xs => x ++ "," ++ joinComma (y :: xs)

/-- The `data_parts` list built by `send_data`: every sensor entry except
the two `GATE_MOVING_*` ones, as `KEY:value`, followed by the two
`GATE_MOVING_*` parts computed from the gate controllers' `moving`
flags. -/
def send_data_parts (s : Sensors) (gate_a_moving gate_b_moving : Bool) :
    List String :=
  ((sensor_items s).filter
      (fun p => decide (p.1 ∉ ["GATE_MOVING_A", "GATE_MOVING_B"]))).map
    (fun p => p.1 ++ ":" ++ bit p.2)
  ++ ["GATE_MOVING_A:" ++ bit gate_a_moving, "GATE_MOVING_B:" ++ bit gate_b_moving]

/-- The outbound telegram: `"<" + ",".join(data_parts) + ">"`. -/
def send_data (s : Sensors) (gate_a_moving gate_b_moving : Bool) : String :=
  "<" ++ joinComma (send_data_parts s gate_a_moving gate_b_moving) ++ ">"

/-- Python's `str.split(sep)` for a one-character separator, on the
character list (`"".split(c)` is `[""]`, empty segments are kept). -/
def splitChar (c : Char) : List Char → List (List Char)
  | [] => [[]]
  | x :: xs =>
    match splitChar c xs with
    | [] => [[]]
    | r :: rs => if x = c then [] :: r :: rs else (x :: r) :: rs

/-- `line.startswith(c)` -/
def py_startswith (c : Char) : List Char → Bool
  | [] => false
  | x :: _ => x == c

/-- `line.endswith(c)` -/
def py_endswith (c : Char) (l : List Char) : Bool :=
  match l.getLast? with
  | some x => x == c
  | none => false

/-- The keys of the `self.gate_requests` dictionary (lines 92-95). -/
def gate_request_keys : List String := ["GATE_REQUEST_A", "GATE_REQUEST_B"]

/-- The loop body of the parser in `read_arduino_data` (lines 840-846):
one comma-segment.  A segment without `:` is skipped;
`name, value = pair.split(':')` raises `ValueError` unless the split has
exactly two parts; a recognized name appends its `(name, value == '1')`
update. -/
def apply_segment (acc : List (String × Bool)) (pair : List Char) :
    Except String (List (String × Bool)) :=
  if ':' ∈ pair then
    match splitChar ':' pair with
    | [name, value] =>
      if String.mk name ∈ gate_request_keys then
        Except.ok (acc ++ [(String.mk name, value == "1".data)])
      else Except.ok acc
    | _ => Except.error "ValueError"
  else Except.ok acc

/-- The pure parsing part of `read_arduino_data` applied to one stripped
inbound line: the list of recognized `(key, value == "1")` updates it
applies to `gate_requests`, in order, or the Python exception it raises.

* `print(line[-1])` (line 835) raises `IndexError` on the empty line;
* a line not both starting with `<` and ending with `>` yields no
  updates;
* otherwise the delimiters are stripped, the interior split on `,`,
  segments without a `:` are skipped, and
  `name, value = pair.split(':')` raises `ValueError` when the segment
  holds more than one `:`. -/
def read_line_updates (line : String) : Except String (List (String × Bool)) :=
  if line.data.isEmpty then Except.error "IndexError"
  else if py_startswith '<' line.data && py_endswith '>' line.data then
    let data := (line.data.drop 1).dropLast
    let pairs := splitChar ',' data
    pairs.foldlM apply_segment []
  else Except.ok []

/-- States reachable from the initial state by rover moves, request
telegrams and animation ticks. -/
inductive Reachable : SysState → Prop
  | init : Reachable SysState.init
  | move (x : ℚ) {s : SysState} : Reachable s → Reachable (move_rover x s)
  | recv (ra rb : Bool) {s : SysState} : Reachable s → Reachable (receive_requests ra rb s)
  | tick {s : SysState} : Reachable s → Reachable (animate_gates s)

/-! ## Derived predicates used in the statements -/

/-- `line.startswith('<') and line.endswith('>')` -/
def is_delimited (line : String) : Bool :=
  py_startswith '<' line.data && py_endswith '>' line.data

/-- A comma-segment on which `name, value = pair.split(':')` cannot
raise: splitting on `:` gives at most two parts, i.e. the segment holds
at most one `:`. -/
def seg_well_formed (seg : List Char) : Bool :=
  decide ((splitChar ':' seg).length ≤ 2)

/-- The exact domain on which the inbound parser is exception-free: the
line is nonempty, and if it is delimited then every comma-segment of the
interior holds at most one `:`. -/
def line_well_formed (line : String) : Bool :=
  !line.data.isEmpty &&
    (!is_delimited line ||
      ((splitChar ',' ((line.data.drop 1).dropLast)).all seg_well_formed))

/-- The outbound key order stated by the spec. -/
def telegram_key_order : List String :=
  ["PRESENCE_FRONT", "PRESENCE_MIDDLE", "PRESENCE_BACK", "GATE_SAFETY_A",
   "GATE_SAFETY_B", "GATE_MOVING_A", "GATE_MOVING_B"]

/-- The spec's description of the telegram content: the seven key/value
pairs in the fixed order, the two `GATE_MOVING_*` values taken from the
gate controllers' moving flags (not from the snapshot). -/
def spec_pairs (s : Sensors) (gate_a_moving gate_b_moving : Bool) :
    List (String × Bool) :=
  [("PRESENCE_FRONT", s.presence_front), ("PRESENCE_MIDDLE", s.presence_middle),
   ("PRESENCE_BACK", s.presence_back), ("GATE_SAFETY_A", s.gate_safety_a),
   ("GATE_SAFETY_B", s.gate_safety_b), ("GATE_MOVING_A", gate_a_moving),
   ("GATE_MOVING_B", gate_b_moving)]

/-! ## Invariants -/

/-- Per-gate invariant: progress and elapsed time bounds, plus phase
coherence at rest (`Sealed ⇒ progress = 0`, `Open ⇒ progress = 1`). -/
def GateInv (g : GateState) : Prop :=
  0 ≤ g.progress ∧ g.progress ≤ 1 ∧ 0 ≤ g.animation_time ∧
  (g.moving = false →
    (g.isOpen = true → g.progress = 1) ∧ (g.isOpen = false → g.progress = 0))

/-- System invariant: both gate invariants, and the `GATE_MOVING_*`
sensor entries mirror the authoritative per-gate moving flags. -/
def SysInv (s : SysState) : Prop :=
  GateInv s.gate_a ∧ GateInv s.gate_b ∧
  s.sensors.gate_moving_a = s.gate_a.moving ∧
  s.sensors.gate_moving_b = s.gate_b.moving

/-! ## Concrete scenario states -/

/-- The gate-open-cycle scenario after the open request and `k` ticks,
`0 ≤ k ≤ 29`: gate A opening with progress `k/30` and elapsed time
`k/10`. -/
def c6_mid (k : ℚ) : SysState :=
  ⟨50, ⟨false, false, false, false, false, true, false⟩, true, false,
    ⟨false, true, true, k/30, k/10⟩, GateState.init⟩

/-- The gate-open-cycle scenario after the 30th tick: gate A fully open,
at rest. -/
def c6_final : SysState :=
  ⟨50, Sensors.init, true, false, ⟨true, false, true, 1, 0⟩, GateState.init⟩

/-- Closing-interlock scenario, before the close request: gate A resting
fully open, rover parked at `x = 304` (the centre of gate A, so
`GATE_SAFETY_A` is tripped). -/
def interlock_pre : SysState :=
  ⟨304, update_sensors 304 Sensors.init, false, false,
    ⟨true, false, true, 1, 0⟩, GateState.init⟩

/-- Closing-interlock scenario: a close request arrives for gate A while
the rover trips `GATE_SAFETY_A`. -/
def interlock_state : SysState :=
  receive_requests false false interlock_pre

/-! ## Theorems -/

/-- C3: for every rover x position, each presence sensor is true iff the
zone's sensor line (the horizontal centre of the zone) lies within the
closed interval `[rover.left, rover.right]` with
`rover.left = x - width/2`, `rover.right = x + width/2`; both boundary
cases yield true because the interval is closed. -/
theorem presence_sensor_iff (x : ℚ) (s : Sensors) :
    ((update_sensors x s).presence_front = true ↔
      x - rover_width / 2 ≤ front_sensor_x ∧
        front_sensor_x ≤ x + rover_width / 2) ∧
    ((update_sensors x s).presence_middle = true ↔
      x - rover_width / 2 ≤ middle_sensor_x ∧
        middle_sensor_x ≤ x + rover_width / 2) ∧
    ((update_sensors x s).presence_back = true ↔
      x - rover_width / 2 ≤ back_sensor_x ∧
        back_sensor_x ≤ x + rover_width / 2) := by
  refine ⟨?_, ?_, ?_⟩ <;> simp [update_sensors]

/-- C4: for every rover x position, each gate safety sensor is true iff
the rover interval strictly overlaps the gate's safety interval
(`rover.right > gateX - halfWidth` and `rover.left < gateX + halfWidth`,
both strict); a rover whose edge exactly touches the safety-interval
edge does not trip the sensor. -/
theorem safety_sensor_iff (x : ℚ) (s : Sensors) :
    ((update_sensors x s).gate_safety_a = true ↔
      x + rover_width / 2 > (start_x + gate_a_x) - safety_zone_width / 2 ∧
        x - rover_width / 2 < (start_x + gate_a_x) + safety_zone_width / 2) ∧
    ((update_sensors x s).gate_safety_b = true ↔
      x + rover_width / 2 > (start_x + gate_b_x) - safety_zone_width / 2 ∧
        x - rover_width / 2 < (start_x + gate_b_x) + safety_zone_width / 2) := by
  constructor <;> simp [update_sensors]

/-- C8: the encoded telegram is `<` ++ the seven `KEY:V` pairs joined by
`,` ++ `>`, with exactly the keys `PRESENCE_FRONT, PRESENCE_MIDDLE,
PRESENCE_BACK, GATE_SAFETY_A, GATE_SAFETY_B, GATE_MOVING_A,
GATE_MOVING_B` in that fixed order, the two `GATE_MOVING_*` values taken
from the gate controllers' moving flags rather than from the snapshot
dictionary. -/
theorem send_data_format (s : Sensors) (a b : Bool) :
    send_data s a b =
      "<" ++ joinComma ((spec_pairs s a b).map (fun kv => kv.1 ++ ":" ++ bit kv.2)) ++ ">" ∧
    (spec_pairs s a b).map Prod.fst = telegram_key_order :=
  ⟨rfl, rfl⟩

/-- C9: decoding the encoded telegram yields exactly the recognized
(`GATE_REQUEST_A`/`GATE_REQUEST_B`) part of the transmitted key/value
pairs with the same boolean values — the telegram contains no recognized
key, so this recognized part is empty and the agreement is vacuous. -/
theorem telegram_round_trip (s : Sensors) (a b : Bool) :
    read_line_updates (send_data s a b) =
      Except.ok ((spec_pairs s a b).filter
        (fun kv => decide (kv.1 ∈ gate_request_keys))) ∧
    (spec_pairs s a b).filter (fun kv => decide (kv.1 ∈ gate_request_keys)) = [] := by
  obtain ⟨pf, pm, pb, sa, sb, ma, mb⟩ := s
  cases pf <;> cases pm <;> cases pb <;> cases sa <;> cases sb <;>
    cases ma <;> cases mb <;> cases a <;> cases b <;> exact ⟨rfl, rfl⟩

theorem splitChar_ne_nil (c : Char) (l : List Char) : splitChar c l ≠ [] := by
  induction l with
  | nil => simp [splitChar]
  | cons x xs ih =>
    rw [splitChar]
    cases hs : splitChar c xs with
    | nil => simp
    | cons r rs => dsimp only; split <;> simp

theorem splitChar_length (c : Char) (l : List Char) :
    (splitChar c l).length = l.count c + 1 := by
  induction l with
  | nil => simp [splitChar]
  | cons x xs ih =>
    rw [splitChar]
    cases hs : splitChar c xs with
    | nil => exact absurd hs (splitChar_ne_nil c xs)
    | cons r rs =>
      rw [hs] at ih
      by_cases hx : x = c
      · subst hx; simp_all [List.count_cons]
      · simp_all [List.count_cons, Ne.symm hx]

theorem apply_segment_isOk (acc : List (String × Bool)) (pair : List Char) :
    (apply_segment acc pair).isOk = seg_well_formed pair := by
  have hlen : (splitChar ':' pair).length = pair.count ':' + 1 :=
    splitChar_length ':' pair
  by_cases h : ':' ∈ pair
  · have hpos : 0 < pair.count ':' := List.count_pos_iff.mpr h
    cases hsp : splitChar ':' pair with
    | nil => exact absurd hsp (splitChar_ne_nil ':' pair)
    | cons n rest =>
      cases rest with
      | nil => rw [hsp] at hlen; simp at hlen; omega
      | cons v rest2 =>
        cases rest2 with
        | nil =>
          rw [seg_well_formed, hsp]
          simp only [apply_segment, if_pos h, hsp]
          split <;> rfl
        | cons w rest3 =>
          rw [seg_well_formed, hsp]
          simp only [apply_segment, if_pos h, hsp]
          simp
          rfl
  · have hcount : pair.count ':' = 0 := by
      simpa using List.count_eq_zero_of_not_mem h
    rw [seg_well_formed, hlen, hcount]
    simp only [apply_segment, if_neg h]
    rfl

theorem foldlM_apply_segment_isOk (segs : List (List Char))
    (acc : List (String × Bool)) :
    (segs.foldlM apply_segment acc).isOk = segs.all seg_well_formed := by
  induction segs generalizing acc with
  | nil => rfl
  | cons spair rest ih =>
    rw [List.foldlM_cons, List.all_cons]
    cases hstep : apply_segment acc spair with
    | error e =>
      have h3 := apply_segment_isOk acc spair
      rw [hstep] at h3
      have h4 : seg_well_formed spair = false := by rw [← h3]; rfl
      rw [h4]
      rfl
    | ok acc2 =>
      have h3 := apply_segment_isOk acc spair
      rw [hstep] at h3
      have h4 : seg_well_formed spair = true := by rw [← h3]; rfl
      rw [h4]
      show (List.foldlM apply_segment acc2 rest).isOk = (true && rest.all seg_well_formed)
      rw [ih]
      rfl

/-- C2 amended: parsing an inbound line is exception-free exactly on
`line_well_formed` inputs — the line must be nonempty (the empty line
raises `IndexError` at `print(line[-1])`) and, when delimited, every
comma-segment must hold at most one `:` (two or more raise `ValueError`
at `pair.split(':')`).  On such inputs the behaviour is as claimed; in
particular a nonempty line that is not both `<`-started and `>`-ended
yields zero recognized updates. -/
theorem read_line_total_amended (line : String) :
    ((read_line_updates line).isOk = line_well_formed line) ∧
    (line.data ≠ [] → is_delimited line = false →
      read_line_updates line = Except.ok []) := by
  constructor
  · by_cases hempty : line.data.isEmpty = true
    · have h : read_line_updates line = Except.error "IndexError" := by
        rw [read_line_updates, if_pos hempty]
      rw [h]
      unfold line_well_formed
      rw [hempty]
      rfl
    · have hef : line.data.isEmpty = false := by
        revert hempty; cases line.data.isEmpty <;> simp
      by_cases hdel : is_delimited line = true
      · have hdel2 : (py_startswith '<' line.data && py_endswith '>' line.data) = true := hdel
        have h : read_line_updates line =
            (splitChar ',' ((line.data.drop 1).dropLast)).foldlM apply_segment [] := by
          rw [read_line_updates, if_neg (by simp [hef]), if_pos hdel2]
        rw [h, foldlM_apply_segment_isOk]
        unfold line_well_formed
        rw [hdel, hef]
        rfl
      · have hdelf : is_delimited line = false := by
          revert hdel; cases (is_delimited line) <;> simp
        have hdel2 : ¬((py_startswith '<' line.data && py_endswith '>' line.data) = true) := hdel
        have h : read_line_updates line = Except.ok [] := by
          rw [read_line_updates, if_neg (by simp [hef]), if_neg hdel2]
        rw [h]
        unfold line_well_formed
        rw [hdelf, hef]
        rfl
  · intro h1 h2
    have hef : line.data.isEmpty = false := by
      revert h1; cases line.data <;> simp
    have hdel2 : ¬((py_startswith '<' line.data && py_endswith '>' line.data) = true) := by
      intro hcon
      rw [show (py_startswith '<' line.data && py_endswith '>' line.data) = is_delimited line
        from rfl, h2] at hcon
      exact Bool.false_ne_true hcon
    rw [read_line_updates, if_neg (by simp [hef]), if_neg hdel2]

/-- C2 amended, witness: a nonempty non-delimited line parses to zero
updates without raising. -/
theorem read_line_total_amended_witness :
    read_line_updates "garbage" = Except.ok [] :=
  (read_line_total_amended "garbage").2 (by decide) (by decide)

/-- C2 counterexample: the claim "no exception is raised for any
malformed input, including segments containing more than one ':' and the
empty line" is false on the code: the empty line raises `IndexError` at
`print(line[-1])`, and a delimited segment with two ':' raises
`ValueError` at `name, value = pair.split(':')`. -/
theorem read_line_raises :
    read_line_updates "" = Except.error "IndexError" ∧
    read_line_updates "<A:1:2>" = Except.error "ValueError" :=
  ⟨rfl, rfl⟩

theorem pymin_le_right (a b : ℚ) : pymin a b ≤ b := by
  unfold pymin; split
  · assumption
  · exact le_refl b

theorem dt_over_duration : animation_dt / gate_animation_duration = 1/30 := by
  unfold animation_dt gate_animation_duration; norm_num

/-- One tick of a gate that is opening with `elapsed` consistent with its
progress advances progress by exactly one tick's delta, clamped at 1. -/
theorem tick_opening_progress (g : GateState) (dm : Bool) (hm : g.moving = true)
    (ht : g.target_state = true) (h0 : 0 ≤ g.progress) (h1 : g.progress ≤ 1)
    (he : g.animation_time = g.progress * gate_animation_duration) :
    g.progress ≤ (animate_gate g dm).1.progress ∧
    (animate_gate g dm).1.progress ≤ g.progress + animation_dt / gate_animation_duration := by
  have hq : (g.animation_time + animation_dt) / gate_animation_duration =
      g.progress + 1/30 := by
    rw [he]; unfold gate_animation_duration animation_dt; ring
  rw [dt_over_duration]
  unfold animate_gate animate_gate_with
  rw [hm, ht]
  simp only [Bool.not_true, Bool.false_eq_true, if_false, if_true]
  rw [hq]
  by_cases hc : 1 ≤ pymin (g.progress + 1/30) 1
  · rw [if_pos hc]
    dsimp only
    have hone : 1 ≤ g.progress + 1/30 := by
      by_cases hql : g.progress + 1/30 ≤ 1
      · have : pymin (g.progress + 1/30) 1 = g.progress + 1/30 := by
          unfold pymin; rw [if_pos hql]
        rw [this] at hc; exact hc
      · linarith
    constructor <;> linarith
  · rw [if_neg hc]
    dsimp only
    have hql : g.progress + 1/30 ≤ 1 := by
      by_cases hql2 : g.progress + 1/30 ≤ 1
      · exact hql2
      · exact absurd (by unfold pymin; rw [if_neg hql2] : pymin (g.progress + 1/30) 1 = 1) (by
          intro hcon; exact hc (by rw [hcon]))
    have : pymin (g.progress + 1/30) 1 = g.progress + 1/30 := by
      unfold pymin; rw [if_pos hql]
    rw [this]
    constructor <;> linarith

/-- One tick of a gate that is closing with `elapsed` consistent with its
progress decreases progress by exactly one tick's delta, clamped at 0. -/
theorem tick_closing_progress (g : GateState) (dm : Bool) (hm : g.moving = true)
    (ht : g.target_state = false) (h0 : 0 ≤ g.progress) (h1 : g.progress ≤ 1)
    (he : g.animation_time = (1 - g.progress) * gate_animation_duration) :
    (animate_gate g dm).1.progress ≤ g.progress ∧
    g.progress - animation_dt / gate_animation_duration ≤ (animate_gate g dm).1.progress := by
  have hq : (g.animation_time + animation_dt) / gate_animation_duration =
      1 - g.progress + 1/30 := by
    rw [he]; unfold gate_animation_duration animation_dt; ring
  rw [dt_over_duration]
  unfold animate_gate animate_gate_with
  rw [hm, ht]
  simp only [Bool.not_true, Bool.not_false, Bool.false_eq_true, if_false, if_true]
  rw [hq]
  by_cases hc : 1 ≤ pymin (1 - g.progress + 1/30) 1
  · rw [if_pos hc]
    dsimp only
    have hone : 1 ≤ 1 - g.progress + 1/30 := by
      by_cases hql : 1 - g.progress + 1/30 ≤ 1
      · have : pymin (1 - g.progress + 1/30) 1 = 1 - g.progress + 1/30 := by
          unfold pymin; rw [if_pos hql]
        rw [this] at hc; exact hc
      · linarith
    constructor <;> linarith
  · rw [if_neg hc]
    dsimp only
    have hql : 1 - g.progress + 1/30 ≤ 1 := by
      by_cases hql2 : 1 - g.progress + 1/30 ≤ 1
      · exact hql2
      · exact absurd (by unfold pymin; rw [if_neg hql2] :
          pymin (1 - g.progress + 1/30) 1 = 1) (by
          intro hcon; exact hc (by rw [hcon]))
    have : pymin (1 - g.progress + 1/30) 1 = 1 - g.progress + 1/30 := by
      unfold pymin; rw [if_pos hql]
    rw [this]
    constructor <;> linarith

/-- C5: a request opposite to the current direction of a moving gate
flips `targetOpen` and recomputes `elapsed` from the current progress
(`progress * duration` when switching to opening,
`(1 - progress) * duration` when switching to closing) without touching
`progress`; the next tick's progress then differs from the pre-reversal
progress by at most `dt/duration` and moves toward the new target. -/
theorem reversal_continuity (g : GateState) (r : Bool) (dm dm2 : Bool)
    (hm : g.moving = true) (ht : g.target_state ≠ r)
    (h0 : 0 ≤ g.progress) (h1 : g.progress ≤ 1) :
    (process_gate_request r g dm).1.target_state = r ∧
    (process_gate_request r g dm).1.moving = true ∧
    (process_gate_request r g dm).1.progress = g.progress ∧
    (process_gate_request r g dm).1.animation_time =
      (if r then g.progress else 1 - g.progress) * gate_animation_duration ∧
    |(animate_gate (process_gate_request r g dm).1 dm2).1.progress - g.progress| ≤
      animation_dt / gate_animation_duration ∧
    (r = true → g.progress ≤ (animate_gate (process_gate_request r g dm).1 dm2).1.progress) ∧
    (r = false → (animate_gate (process_gate_request r g dm).1 dm2).1.progress ≤ g.progress) := by
  cases r with
  | true =>
    have htv : g.target_state = false := by revert ht; cases g.target_state <;> simp
    have hg1 : (process_gate_request true g dm).1 =
        { g with
            target_state := true
            animation_time := g.progress * gate_animation_duration } := by
      simp [process_gate_request, hm, htv]
    rw [hg1]
    obtain ⟨hlo, hhi⟩ := tick_opening_progress
      { g with
          target_state := true
          animation_time := g.progress * gate_animation_duration } dm2 hm rfl h0 h1 rfl
    refine ⟨rfl, hm, rfl, rfl, ?_, fun _ => hlo, fun hcon => by simp at hcon⟩
    rw [abs_le]
    constructor <;> simp only at hlo hhi <;> linarith
  | false =>
    have htv : g.target_state = true := by revert ht; cases g.target_state <;> simp
    have hg1 : (process_gate_request false g dm).1 =
        { g with
            target_state := false
            animation_time := (1 - g.progress) * gate_animation_duration } := by
      simp [process_gate_request, hm, htv]
    rw [hg1]
    obtain ⟨hhi, hlo⟩ := tick_closing_progress
      { g with
          target_state := false
          animation_time := (1 - g.progress) * gate_animation_duration } dm2 hm rfl h0 h1 rfl
    refine ⟨rfl, hm, rfl, rfl, ?_, fun hcon => by simp at hcon, fun _ => hhi⟩
    rw [abs_le]
    constructor <;> simp only at hlo hhi <;> linarith

/-- C5 witness: reversing a just-started opening gate (progress 0) to a
close request. -/
theorem reversal_continuity_witness :
    ((process_gate_request false ⟨false, true, true, 0, 0⟩ false).1.target_state = false) ∧
    ((process_gate_request false ⟨false, true, true, 0, 0⟩ false).1.moving = true) ∧
    ((process_gate_request false ⟨false, true, true, 0, 0⟩ false).1.progress =
      (⟨false, true, true, 0, 0⟩ : GateState).progress) ∧
    ((process_gate_request false ⟨false, true, true, 0, 0⟩ false).1.animation_time =
      (if false then (⟨false, true, true, 0, 0⟩ : GateState).progress
        else 1 - (⟨false, true, true, 0, 0⟩ : GateState).progress) * gate_animation_duration) ∧
    (|(animate_gate (process_gate_request false ⟨false, true, true, 0, 0⟩ false).1 false).1.progress -
        (⟨false, true, true, 0, 0⟩ : GateState).progress| ≤
      animation_dt / gate_animation_duration) ∧
    (false = true →
      (⟨false, true, true, 0, 0⟩ : GateState).progress ≤
        (animate_gate (process_gate_request false ⟨false, true, true, 0, 0⟩ false).1 false).1.progress) ∧
    (false = false →
      (animate_gate (process_gate_request false ⟨false, true, true, 0, 0⟩ false).1 false).1.progress ≤
        (⟨false, true, true, 0, 0⟩ : GateState).progress) :=
  reversal_continuity ⟨false, true, true, 0, 0⟩ false false false rfl
    (by decide) (le_refl 0) zero_le_one

theorem process_gateInv (r : Bool) (g : GateState) (dm : Bool) (h : GateInv g) :
    GateInv (process_gate_request r g dm).1 := by
  obtain ⟨h0, h1, h2, h3⟩ := h
  have hd3 : (0:ℚ) ≤ gate_animation_duration := by unfold gate_animation_duration; norm_num
  have hp3 : 0 ≤ g.progress * gate_animation_duration := mul_nonneg h0 hd3
  have hq3 : 0 ≤ (1 - g.progress) * gate_animation_duration :=
    mul_nonneg (by linarith) hd3
  cases r <;> cases hmv : g.moving <;> cases hop : g.isOpen <;>
    cases hts : g.target_state <;>
      simp [process_gate_request, hmv, hop, hts, GateInv] <;>
      first
      | exact ⟨h0, h1, hp3⟩
      | exact ⟨h0, h1, hq3⟩
      | exact ⟨h0, h1, h2, (h3 hmv).1 hop⟩
      | exact ⟨h0, h1, h2, (h3 hmv).2 hop⟩
      | exact ⟨h0, h1, h2⟩

/-- The per-gate tick on a moving, opening gate, as an explicit case
split on the completion test. -/
theorem animate_opening_eq (g : GateState) (dm : Bool) (hm : g.moving = true)
    (ht : g.target_state = true) :
    animate_gate_with false g dm =
      (if 1 ≤ pymin ((g.animation_time + animation_dt) / gate_animation_duration) 1 then
        ({ g with
            progress := 1
            isOpen := true
            moving := false
            animation_time := 0 }, false)
      else
        ({ g with
            animation_time := g.animation_time + animation_dt
            progress := pymin ((g.animation_time + animation_dt) / gate_animation_duration) 1 },
          dm)) := by
  simp [animate_gate_with, hm, ht, ge_iff_le]

/-- The per-gate tick on a moving, closing gate (with the source's
hardcoded `safety_triggered=False`), as an explicit case split on the
completion test. -/
theorem animate_closing_eq (g : GateState) (dm : Bool) (hm : g.moving = true)
    (ht : g.target_state = false) :
    animate_gate_with false g dm =
      (if 1 ≤ pymin ((g.animation_time + animation_dt) / gate_animation_duration) 1 then
        ({ g with
            progress := 0
            isOpen := false
            moving := false
            animation_time := 0 }, false)
      else
        ({ g with
            animation_time := g.animation_time + animation_dt
            progress := 1 - pymin ((g.animation_time + animation_dt) / gate_animation_duration) 1 },
          dm)) := by
  simp [animate_gate_with, hm, ht, ge_iff_le]

theorem animate_not_moving_eq (st : Bool) (g : GateState) (dm : Bool)
    (hm : g.moving = false) : animate_gate_with st g dm = (g, dm) := by
  simp [animate_gate_with, hm]

theorem animate_gateInv (g : GateState) (dm : Bool) (h : GateInv g) :
    GateInv (animate_gate g dm).1 := by
  obtain ⟨h0, h1, h2, h3⟩ := h
  have ht0 : (0:ℚ) ≤ g.animation_time + animation_dt := by
    unfold animation_dt; linarith
  have hq0 : 0 ≤ pymin ((g.animation_time + animation_dt) / gate_animation_duration) 1 := by
    unfold pymin; split
    · apply div_nonneg ht0; unfold gate_animation_duration; norm_num
    · exact zero_le_one
  have hq1 : pymin ((g.animation_time + animation_dt) / gate_animation_duration) 1 ≤ 1 :=
    pymin_le_right _ _
  unfold animate_gate
  by_cases hmv : g.moving = true
  · cases hts : g.target_state
    · rw [animate_closing_eq g dm hmv hts]
      split_ifs with hc
      · exact ⟨le_refl 0, zero_le_one, le_refl 0, fun _ =>
          ⟨fun hcon => by simp at hcon, fun _ => rfl⟩⟩
      · refine ⟨?_, ?_, ?_, fun hcon => ?_⟩
        · show (0:ℚ) ≤ 1 - pymin ((g.animation_time + animation_dt) / gate_animation_duration) 1
          linarith
        · show 1 - pymin ((g.animation_time + animation_dt) / gate_animation_duration) 1 ≤ 1
          linarith
        · exact ht0
        · simp [hmv] at hcon
    · rw [animate_opening_eq g dm hmv hts]
      split_ifs with hc
      · exact ⟨zero_le_one, le_refl 1, le_refl 0, fun _ =>
          ⟨fun _ => rfl, fun hcon => by simp at hcon⟩⟩
      · refine ⟨hq0, hq1, ht0, fun hcon => ?_⟩
        simp [hmv] at hcon
  · have hmv2 : g.moving = false := by revert hmv; cases g.moving <;> simp
    rw [animate_not_moving_eq false g dm hmv2]
    exact ⟨h0, h1, h2, h3⟩

theorem process_mirror (r : Bool) (g : GateState) (dm : Bool) (h : dm = g.moving) :
    (process_gate_request r g dm).2 = (process_gate_request r g dm).1.moving := by
  cases r <;> cases hmv : g.moving <;> cases hop : g.isOpen <;>
    cases hts : g.target_state <;> simp_all [process_gate_request]

theorem animate_mirror (g : GateState) (dm : Bool) (h : dm = g.moving) :
    (animate_gate g dm).2 = (animate_gate g dm).1.moving := by
  unfold animate_gate
  by_cases hmv : g.moving = true
  · cases hts : g.target_state
    · rw [animate_closing_eq g dm hmv hts]; split_ifs <;> simp_all
    · rw [animate_opening_eq g dm hmv hts]; split_ifs <;> simp_all
  · have hmv2 : g.moving = false := by revert hmv; cases g.moving <;> simp
    rw [animate_not_moving_eq false g dm hmv2]
    simp [h]

/-- Combined reachability invariant: both gates satisfy `GateInv` and the
`GATE_MOVING_*` sensor entries mirror the gate moving flags. -/
theorem reachable_sysInv (s : SysState) (h : Reachable s) : SysInv s := by
  induction h with
  | init =>
    refine ⟨?_, ?_, rfl, rfl⟩ <;>
      exact ⟨le_refl 0, zero_le_one, le_refl 0, fun _ =>
        ⟨fun hcon => absurd hcon (by decide), fun _ => rfl⟩⟩
  | move x hr ih =>
    obtain ⟨hA, hB, hmA, hmB⟩ := ih
    exact ⟨hA, hB, hmA, hmB⟩
  | recv ra rb hr ih =>
    obtain ⟨hA, hB, hmA, hmB⟩ := ih
    exact ⟨process_gateInv _ _ _ hA, process_gateInv _ _ _ hB,
      process_mirror _ _ _ hmA, process_mirror _ _ _ hmB⟩
  | tick hr ih =>
    obtain ⟨hA, hB, hmA, hmB⟩ := ih
    exact ⟨animate_gateInv _ _ hA, animate_gateInv _ _ hB,
      animate_mirror _ _ hmA, animate_mirror _ _ hmB⟩

/-- C7: in every reachable state each gate's progress lies in `[0, 1]`; a
gate resting sealed (`open = false`, `moving = false`) has progress 0 and
a gate resting open has progress 1. -/
theorem progress_bounds_and_coherence (s : SysState) (h : Reachable s) :
    (0 ≤ s.gate_a.progress ∧ s.gate_a.progress ≤ 1) ∧
    (0 ≤ s.gate_b.progress ∧ s.gate_b.progress ≤ 1) ∧
    (s.gate_a.moving = false → s.gate_a.isOpen = false → s.gate_a.progress = 0) ∧
    (s.gate_a.moving = false → s.gate_a.isOpen = true → s.gate_a.progress = 1) ∧
    (s.gate_b.moving = false → s.gate_b.isOpen = false → s.gate_b.progress = 0) ∧
    (s.gate_b.moving = false → s.gate_b.isOpen = true → s.gate_b.progress = 1) := by
  obtain ⟨⟨a0, a1, _, a3⟩, ⟨b0, b1, _, b3⟩, _, _⟩ := reachable_sysInv s h
  exact ⟨⟨a0, a1⟩, ⟨b0, b1⟩, fun hm ho => (a3 hm).2 ho, fun hm ho => (a3 hm).1 ho,
    fun hm ho => (b3 hm).2 ho, fun hm ho => (b3 hm).1 ho⟩

/-- C7 witness: the invariant at the initial state. -/
theorem progress_bounds_and_coherence_witness :
    (0 ≤ SysState.init.gate_a.progress ∧ SysState.init.gate_a.progress ≤ 1) ∧
    (0 ≤ SysState.init.gate_b.progress ∧ SysState.init.gate_b.progress ≤ 1) ∧
    (SysState.init.gate_a.moving = false → SysState.init.gate_a.isOpen = false →
      SysState.init.gate_a.progress = 0) ∧
    (SysState.init.gate_a.moving = false → SysState.init.gate_a.isOpen = true →
      SysState.init.gate_a.progress = 1) ∧
    (SysState.init.gate_b.moving = false → SysState.init.gate_b.isOpen = false →
      SysState.init.gate_b.progress = 0) ∧
    (SysState.init.gate_b.moving = false → SysState.init.gate_b.isOpen = true →
      SysState.init.gate_b.progress = 1) :=
  progress_bounds_and_coherence SysState.init Reachable.init

/-- C10: in every reachable state the transmitted `GATE_MOVING_A` /
`GATE_MOVING_B` sensor entries equal the authoritative per-gate moving
flags. -/
theorem moving_flag_mirror (s : SysState) (h : Reachable s) :
    s.sensors.gate_moving_a = s.gate_a.moving ∧
    s.sensors.gate_moving_b = s.gate_b.moving := by
  obtain ⟨_, _, hmA, hmB⟩ := reachable_sysInv s h
  exact ⟨hmA, hmB⟩

/-- C10 witness: the mirror property at the initial state. -/
theorem moving_flag_mirror_witness :
    SysState.init.sensors.gate_moving_a = SysState.init.gate_a.moving ∧
    SysState.init.sensors.gate_moving_b = SysState.init.gate_b.moving :=
  moving_flag_mirror SysState.init Reachable.init

/-- C6: with duration 3.0 and dt 0.1, an open request for gate A from the
sealed initial state followed by exactly 30 ticks yields gate A fully
open (`open = true`, `moving = false`, `progress = 1`, `elapsed = 0`); a
31st tick leaves the whole state unchanged. -/
theorem gate_open_cycle :
    (animate_gates^[30] (receive_requests true false SysState.init)).gate_a =
      ⟨true, false, true, 1, 0⟩ ∧
    animate_gates (animate_gates^[30] (receive_requests true false SysState.init)) =
      animate_gates^[30] (receive_requests true false SysState.init) := by
  have h0 : receive_requests true false SysState.init = c6_mid 0 := by
    norm_num [receive_requests, process_gate_requests, process_gate_request,
      SysState.init, GateState.init, Sensors.init, c6_mid, gate_animation_duration]
  have h1 : animate_gates (c6_mid 0) = c6_mid 1 := by
    norm_num [animate_gates, animate_gate, animate_gate_with, c6_mid, GateState.init,
      pymin, animation_dt, gate_animation_duration]
  have h2 : animate_gates (c6_mid 1) = c6_mid 2 := by
    norm_num [animate_gates, animate_gate, animate_gate_with, c6_mid, GateState.init,
      pymin, animation_dt, gate_animation_duration]
  have h3 : animate_gates (c6_mid 2) = c6_mid 3 := by
    norm_num [animate_gates, animate_gate, animate_gate_with, c6_mid, GateState.init,
      pymin, animation_dt, gate_animation_duration]
  have h4 : animate_gates (c6_mid 3) = c6_mid 4 := by
    norm_num [animate_gates, animate_gate, animate_gate_with, c6_mid, GateState.init,
      pymin, animation_dt, gate_animation_duration]
  have h5 : animate_gates (c6_mid 4) = c6_mid 5 := by
    norm_num [animate_gates, animate_gate, animate_gate_with, c6_mid, GateState.init,
      pymin, animation_dt, gate_animation_duration]
  have h6 : animate_gates (c6_mid 5) = c6_mid 6 := by
    norm_num [animate_gates, animate_gate, animate_gate_with, c6_mid, GateState.init,
      pymin, animation_dt, gate_animation_duration]
  have h7 : animate_gates (c6_mid 6) = c6_mid 7 := by
    norm_num [animate_gates, animate_gate, animate_gate_with, c6_mid, GateState.init,
      pymin, animation_dt, gate_animation_duration]
  have h8 : animate_gates (c6_mid 7) = c6_mid 8 := by
    norm_num [animate_gates, animate_gate, animate_gate_with, c6_mid, GateState.init,
      pymin, animation_dt, gate_animation_duration]
  have h9 : animate_gates (c6_mid 8) = c6_mid 9 := by
    norm_num [animate_gates, animate_gate, animate_gate_with, c6_mid, GateState.init,
      pymin, animation_dt, gate_animation_duration]
  have h10 : animate_gates (c6_mid 9) = c6_mid 10 := by
    norm_num [animate_gates, animate_gate, animate_gate_with, c6_mid, GateState.init,
      pymin, animation_dt, gate_animation_duration]
  have h11 : animate_gates (c6_mid 10) = c6_mid 11 := by
    norm_num [animate_gates, animate_gate, animate_gate_with, c6_mid, GateState.init,
      pymin, animation_dt, gate_animation_duration]
  have h12 : animate_gates (c6_mid 11) = c6_mid 12 := by
    norm_num [animate_gates, animate_gate, animate_gate_with, c6_mid, GateState.init,
      pymin, animation_dt, gate_animation_duration]
  have h13 : animate_gates (c6_mid 12) = c6_mid 13 := by
    norm_num [animate_gates, animate_gate, animate_gate_with, c6_mid, GateState.init,
      pymin, animation_dt, gate_animation_duration]
  have h14 : animate_gates (c6_mid 13) = c6_mid 14 := by
    norm_num [animate_gates, animate_gate, animate_gate_with, c6_mid, GateState.init,
      pymin, animation_dt, gate_animation_duration]
  have h15 : animate_gates (c6_mid 14) = c6_mid 15 := by
    norm_num [animate_gates, animate_gate, animate_gate_with, c6_mid, GateState.init,
      pymin, animation_dt, gate_animation_duration]
  have h16 : animate_gates (c6_mid 15) = c6_mid 16 := by
    norm_num [animate_gates, animate_gate, animate_gate_with, c6_mid, GateState.init,
      pymin, animation_dt, gate_animation_duration]
  have h17 : animate_gates (c6_mid 16) = c6_mid 17 := by
    norm_num [animate_gates, animate_gate, animate_gate_with, c6_mid, GateState.init,
      pymin, animation_dt, gate_animation_duration]
  have h18 : animate_gates (c6_mid 17) = c6_mid 18 := by
    norm_num [animate_gates, animate_gate, animate_gate_with, c6_mid, GateState.init,
      pymin, animation_dt, gate_animation_duration]
  have h19 : animate_gates (c6_mid 18) = c6_mid 19 := by
    norm_num [animate_gates, animate_gate, animate_gate_with, c6_mid, GateState.init,
      pymin, animation_dt, gate_animation_duration]
  have h20 : animate_gates (c6_mid 19) = c6_mid 20 := by
    norm_num [animate_gates, animate_gate, animate_gate_with, c6_mid, GateState.init,
      pymin, animation_dt, gate_animation_duration]
  have h21 : animate_gates (c6_mid 20) = c6_mid 21 := by
    norm_num [animate_gates, animate_gate, animate_gate_with, c6_mid, GateState.init,
      pymin, animation_dt, gate_animation_duration]
  have h22 : animate_gates (c6_mid 21) = c6_mid 22 := by
    norm_num [animate_gates, animate_gate, animate_gate_with, c6_mid, GateState.init,
      pymin, animation_dt, gate_animation_duration]
  have h23 : animate_gates (c6_mid 22) = c6_mid 23 := by
    norm_num [animate_gates, animate_gate, animate_gate_with, c6_mid, GateState.init,
      pymin, animation_dt, gate_animation_duration]
  have h24 : animate_gates (c6_mid 23) = c6_mid 24 := by
    norm_num [animate_gates, animate_gate, animate_gate_with, c6_mid, GateState.init,
      pymin, animation_dt, gate_animation_duration]
  have h25 : animate_gates (c6_mid 24) = c6_mid 25 := by
    norm_num [animate_gates, animate_gate, animate_gate_with, c6_mid, GateState.init,
      pymin, animation_dt, gate_animation_duration]
  have h26 : animate_gates (c6_mid 25) = c6_mid 26 := by
    norm_num [animate_gates, animate_gate, animate_gate_with, c6_mid, GateState.init,
      pymin, animation_dt, gate_animation_duration]
  have h27 : animate_gates (c6_mid 26) = c6_mid 27 := by
    norm_num [animate_gates, animate_gate, animate_gate_with, c6_mid, GateState.init,
      pymin, animation_dt, gate_animation_duration]
  have h28 : animate_gates (c6_mid 27) = c6_mid 28 := by
    norm_num [animate_gates, animate_gate, animate_gate_with, c6_mid, GateState.init,
      pymin, animation_dt, gate_animation_duration]
  have h29 : animate_gates (c6_mid 28) = c6_mid 29 := by
    norm_num [animate_gates, animate_gate, animate_gate_with, c6_mid, GateState.init,
      pymin, animation_dt, gate_animation_duration]
  have h30 : animate_gates (c6_mid 29) = c6_final := by
    norm_num [animate_gates, animate_gate, animate_gate_with, c6_mid, c6_final,
      GateState.init, Sensors.init, pymin, animation_dt, gate_animation_duration]
  have e0 : animate_gates^[0] (c6_mid 0) = c6_mid 0 := rfl
  have e1 : animate_gates^[1] (c6_mid 0) = c6_mid 1 := by
    show animate_gates^[0+1] (c6_mid 0) = c6_mid 1
    rw [Function.iterate_succ_apply', e0, h1]
  have e2 : animate_gates^[2] (c6_mid 0) = c6_mid 2 := by
    show animate_gates^[1+1] (c6_mid 0) = c6_mid 2
    rw [Function.iterate_succ_apply', e1, h2]
  have e3 : animate_gates^[3] (c6_mid 0) = c6_mid 3 := by
    show animate_gates^[2+1] (c6_mid 0) = c6_mid 3
    rw [Function.iterate_succ_apply', e2, h3]
  have e4 : animate_gates^[4] (c6_mid 0) = c6_mid 4 := by
    show animate_gates^[3+1] (c6_mid 0) = c6_mid 4
    rw [Function.iterate_succ_apply', e3, h4]
  have e5 : animate_gates^[5] (c6_mid 0) = c6_mid 5 := by
    show animate_gates^[4+1] (c6_mid 0) = c6_mid 5
    rw [Function.iterate_succ_apply', e4, h5]
  have e6 : animate_gates^[6] (c6_mid 0) = c6_mid 6 := by
    show animate_gates^[5+1] (c6_mid 0) = c6_mid 6
    rw [Function.iterate_succ_apply', e5, h6]
  have e7 : animate_gates^[7] (c6_mid 0) = c6_mid 7 := by
    show animate_gates^[6+1] (c6_mid 0) = c6_mid 7
    rw [Function.iterate_succ_apply', e6, h7]
  have e8 : animate_gates^[8] (c6_mid 0) = c6_mid 8 := by
    show animate_gates^[7+1] (c6_mid 0) = c6_mid 8
    rw [Function.iterate_succ_apply', e7, h8]
  have e9 : animate_gates^[9] (c6_mid 0) = c6_mid 9 := by
    show animate_gates^[8+1] (c6_mid 0) = c6_mid 9
    rw [Function.iterate_succ_apply', e8, h9]
  have e10 : animate_gates^[10] (c6_mid 0) = c6_mid 10 := by
    show animate_gates^[9+1] (c6_mid 0) = c6_mid 10
    rw [Function.iterate_succ_apply', e9, h10]
  have e11 : animate_gates^[11] (c6_mid 0) = c6_mid 11 := by
    show animate_gates^[10+1] (c6_mid 0) = c6_mid 11
    rw [Function.iterate_succ_apply', e10, h11]
  have e12 : animate_gates^[12] (c6_mid 0) = c6_mid 12 := by
    show animate_gates^[11+1] (c6_mid 0) = c6_mid 12
    rw [Function.iterate_succ_apply', e11, h12]
  have e13 : animate_gates^[13] (c6_mid 0) = c6_mid 13 := by
    show animate_gates^[12+1] (c6_mid 0) = c6_mid 13
    rw [Function.iterate_succ_apply', e12, h13]
  have e14 : animate_gates^[14] (c6_mid 0) = c6_mid 14 := by
    show animate_gates^[13+1] (c6_mid 0) = c6_mid 14
    rw [Function.iterate_succ_apply', e13, h14]
  have e15 : animate_gates^[15] (c6_mid 0) = c6_mid 15 := by
    show animate_gates^[14+1] (c6_mid 0) = c6_mid 15
    rw [Function.iterate_succ_apply', e14, h15]
  have e16 : animate_gates^[16] (c6_mid 0) = c6_mid 16 := by
    show animate_gates^[15+1] (c6_mid 0) = c6_mid 16
    rw [Function.iterate_succ_apply', e15, h16]
  have e17 : animate_gates^[17] (c6_mid 0) = c6_mid 17 := by
    show animate_gates^[16+1] (c6_mid 0) = c6_mid 17
    rw [Function.iterate_succ_apply', e16, h17]
  have e18 : animate_gates^[18] (c6_mid 0) = c6_mid 18 := by
    show animate_gates^[17+1] (c6_mid 0) = c6_mid 18
    rw [Function.iterate_succ_apply', e17, h18]
  have e19 : animate_gates^[19] (c6_mid 0) = c6_mid 19 := by
    show animate_gates^[18+1] (c6_mid 0) = c6_mid 19
    rw [Function.iterate_succ_apply', e18, h19]
  have e20 : animate_gates^[20] (c6_mid 0) = c6_mid 20 := by
    show animate_gates^[19+1] (c6_mid 0) = c6_mid 20
    rw [Function.iterate_succ_apply', e19, h20]
  have e21 : animate_gates^[21] (c6_mid 0) = c6_mid 21 := by
    show animate_gates^[20+1] (c6_mid 0) = c6_mid 21
    rw [Function.iterate_succ_apply', e20, h21]
  have e22 : animate_gates^[22] (c6_mid 0) = c6_mid 22 := by
    show animate_gates^[21+1] (c6_mid 0) = c6_mid 22
    rw [Function.iterate_succ_apply', e21, h22]
  have e23 : animate_gates^[23] (c6_mid 0) = c6_mid 23 := by
    show animate_gates^[22+1] (c6_mid 0) = c6_mid 23
    rw [Function.iterate_succ_apply', e22, h23]
  have e24 : animate_gates^[24] (c6_mid 0) = c6_mid 24 := by
    show animate_gates^[23+1] (c6_mid 0) = c6_mid 24
    rw [Function.iterate_succ_apply', e23, h24]
  have e25 : animate_gates^[25] (c6_mid 0) = c6_mid 25 := by
    show animate_gates^[24+1] (c6_mid 0) = c6_mid 25
    rw [Function.iterate_succ_apply', e24, h25]
  have e26 : animate_gates^[26] (c6_mid 0) = c6_mid 26 := by
    show animate_gates^[25+1] (c6_mid 0) = c6_mid 26
    rw [Function.iterate_succ_apply', e25, h26]
  have e27 : animate_gates^[27] (c6_mid 0) = c6_mid 27 := by
    show animate_gates^[26+1] (c6_mid 0) = c6_mid 27
    rw [Function.iterate_succ_apply', e26, h27]
  have e28 : animate_gates^[28] (c6_mid 0) = c6_mid 28 := by
    show animate_gates^[27+1] (c6_mid 0) = c6_mid 28
    rw [Function.iterate_succ_apply', e27, h28]
  have e29 : animate_gates^[29] (c6_mid 0) = c6_mid 29 := by
    show animate_gates^[28+1] (c6_mid 0) = c6_mid 29
    rw [Function.iterate_succ_apply', e28, h29]
  have e30 : animate_gates^[30] (c6_mid 0) = c6_final := by
    show animate_gates^[29+1] (c6_mid 0) = c6_final
    rw [Function.iterate_succ_apply', e29, h30]
  have hfinal : animate_gates^[30] (receive_requests true false SysState.init) = c6_final := by
    rw [h0, e30]
  have hid : animate_gates c6_final = c6_final := rfl
  refine ⟨?_, ?_⟩
  · rw [hfinal]; rfl
  · rw [hfinal, hid]

/-- The pause branch the source wrote but disabled: had
`safety_triggered` been read from the safety sensor (the commented-out
line 984) and been true, the tick would leave a closing gate unchanged —
exactly what the spec's interlock clause describes. -/
theorem closing_paused_when_safety_triggered (g : GateState) (dm : Bool)
    (hm : g.moving = true) (ht : g.target_state = false) :
    animate_gate_with true g dm = (g, dm) := by
  simp [animate_gate_with, hm, ht]

/-- C1 divergence witness: gate A is closing (`moving`, `targetOpen =
false`) from `progress = 1` with `elapsed = 0`, and the rover trips
`GATE_SAFETY_A`; the claim says the tick must leave `elapsed` and
`progress` unchanged, but the code — which hardcodes
`safety_triggered=False` — advances `elapsed` to `0.1` and drops
`progress` to `29/30`. -/
theorem closing_advances_despite_safety :
    interlock_state.sensors.gate_safety_a = true ∧
    interlock_state.gate_a.moving = true ∧
    interlock_state.gate_a.target_state = false ∧
    interlock_state.gate_a.progress = 1 ∧
    interlock_state.gate_a.animation_time = 0 ∧
    (animate_gates interlock_state).gate_a.progress = 29/30 ∧
    (animate_gates interlock_state).gate_a.animation_time = 1/10 := by
  norm_num [interlock_state, interlock_pre, receive_requests, process_gate_requests,
    process_gate_request, update_sensors, Sensors.init, GateState.init,
    animate_gates, animate_gate, animate_gate_with, pymin, animation_dt,
    gate_animation_duration, front_zone_width, middle_zone_width, back_zone_width,
    rover_width, scale, start_x, gate_a_x, gate_b_x, safety_zone_width,
    front_sensor_x, middle_sensor_x, back_sensor_x]

end Airlock
